import Mathlib

/-!
Verification of the Rhea conversational-agent workflow engine.

The definitions below are a shallow embedding of `src/agent/agent.ts` and
`src/telegram/bot.ts`: the LangGraph state channels and their reducers, the
`retrieve`, `generate`, `tools` and `generate_after_tools` nodes, the
conditional routing, the Telegram response assembly and the vector-store
indexing. External collaborators (similarity store, tool catalog, language
model) are passed in as function parameters; a thrown JS exception is an
`Except.error` carrying the error message.
-/

namespace Rhea

/-- A content part of a model message: a plain string element, a typed
`text` part carrying its text, or any non-textual part. -/
inductive ContentPart where
  | str (s : String)
  | text (s : String)
  | other
deriving DecidableEq, Repr

/-- Content of an AIMessage: a plain string, an array of parts, or anything
else (e.g. undefined / a non-string non-array value). -/
inductive MessageContent where
  | str (s : String)
  | parts (ps : List ContentPart)
  | other
deriving DecidableEq, Repr

/-- A model-requested tool call `{name, args, id}`; `id` may be absent
(`undefined` in JS). Arguments are kept opaque as a string. -/
structure ToolCall where
  name : String
  args : String
  id : Option String
deriving DecidableEq, Repr

/-- An `AIMessage`: content plus an optional list of tool calls. -/
structure AIMessage where
  content : MessageContent
  tool_calls : Option (List ToolCall)
deriving DecidableEq, Repr

/-- A message in the conversation history. -/
inductive Message where
  | system (content : String)
  | human (content : String)
  | ai (msg : AIMessage)
  | tool (content : String) (tool_call_id : String)
deriving DecidableEq, Repr

/-- A document of the vector store: page content plus key-value metadata. -/
structure Doc where
  pageContent : String
  metadata : List (String × String)
deriving DecidableEq, Repr

/-- A catalog tool: its name and its (fallible) invocation.  A tool output
is modelled in its final string form (string outputs pass through, other
outputs stand for their JSON serialization). -/
structure DSTool where
  name : String
  invoke : String → Except String String

/-- The graph state: channels `question`, `context`, `answer`, `history`
of the `Annotation.Root` in `agent.ts`.  `answer` is `none` before the
first generation node has run (undefined in JS). -/
structure AgentState where
  question : String
  context : String
  answer : Option AIMessage
  history : List Message
deriving DecidableEq, Repr

/-- Partial return value of a node: `some` for the channels that the
returned object of the node mentions, `none` for the channels it omits. -/
structure StateUpdate where
  question : Option String := none
  context : Option String := none
  answer : Option AIMessage := none
  history : Option (List Message) := none
deriving DecidableEq, Repr

/-- The engine state merge: `question`, `context` and `answer` use the
default replace-on-write reducer; `history` uses the declared reducer
`(left, right) => left.concat(right)` with default `[]`. -/
def mergeState (s : AgentState) (u : StateUpdate) : AgentState where
  question := u.question.getD s.question
  context := u.context.getD s.context
  answer :=
    match u.answer with
    | some a => some a
    | none => s.answer
  history := s.history ++ u.history.getD []

/-- The `retrieve` node: `vectorStore.similaritySearch(state.question, 2)`,
then `relevantDocs.map(doc => doc.pageContent).join("\n")`.  There is no
try/catch in the source: a search failure propagates. -/
def retrieve (similaritySearch : String → Nat → Except String (List Doc))
    (state : AgentState) : Except String StateUpdate := do
  let relevantDocs ← similaritySearch state.question 2
  let context := String.intercalate "\n" (relevantDocs.map (·.pageContent))
  pure { context := some context }

/-- The system prompt of the `generate` node, embedding `state.context`. -/
def systemPromptWithTools (context : String) : String :=
  "You are Rhea, a helpful AI assistant with access to powerful tools. You can:\n\n🔧 **Available Tools:**\n- **Email**: Check, send, and manage Gmail\n- **Calendar**: Schedule, view, and manage Google Calendar events\n- **Documents**: Create, edit, and manage Google Docs and Sheets\n- **File Management**: Access and organize Google Drive files\n- **Communication**: Send messages via Discord\n- **Project Management**: Manage tasks and projects in Notion and Linear\n- **Development**: Interact with GitHub repositories\n\n📋 **Instructions:**\n- Answer questions based on the provided context and conversation history\n- Use tools when the user requests actions (checking email, scheduling, file management, etc.)\n- Be proactive about suggesting tool usage when relevant\n- Always be helpful and informative\n\n🔍 **Context from previous conversations:**\n" ++ context ++ "\n\nRemember: You have access to the user\x27s connected accounts through Composio tools. Use them when requested!"

/-- The `generate` node: fetch the tool catalog, build
`[system, ...history, human(question)]`, invoke the tool-bound model,
return `{answer}`.  Catalog fetch or model failure propagates. -/
def generate (getTools : Except String (List DSTool))
    (modelInvokeWithTools : List DSTool → List Message → Except String AIMessage)
    (state : AgentState) : Except String StateUpdate := do
  let availableTools ← getTools
  let systemMessage := Message.system (systemPromptWithTools state.context)
  let messages : List Message :=
    systemMessage :: state.history ++ [Message.human state.question]
  let result ← modelInvokeWithTools availableTools messages
  pure { answer := some result }

/-- The two routing targets of the conditional edge after `generate`. -/
inductive Route where
  | tools
  | stop
deriving DecidableEq, Repr

/-- Routing after generate: a truthy and nonempty tool-call list on the
answer routes to tools, anything else routes to END. -/
def shouldContinue (state : AgentState) : Route :=
  let toolCalls := state.answer.bind (·.tool_calls)
  match toolCalls with
  | some tcs => if tcs.length > 0 then Route.tools else Route.stop
  | none => Route.stop

/-- The tool calls of the current answer, defaulting to the empty list. -/
def answerToolCalls (state : AgentState) : List ToolCall :=
  (state.answer.bind (·.tool_calls)).getD []

/-- The `reduce` building `toolMap`: later tools with the same name
overwrite earlier ones. -/
def buildToolMap (tools : List DSTool) : String → Option DSTool :=
  tools.foldl (fun acc tool => fun n => if n = tool.name then some tool else acc n)
    (fun _ => none)

/-- JS truthiness of `toolCall.id`: `undefined` and the empty string are
falsy. -/
def idTruthy : Option String → Bool
  | none => false
  | some s => !s.isEmpty

/-- The content of the synthesized error result for a failed invocation. -/
def errorContent (name msg : String) : String :=
  "Error executing " ++ name ++ ": " ++ msg

/-- The loop body of the `tools` node, instrumented: returns the built
`toolMessages` together with the list of `(name, args)` invocations
actually performed.  A call is processed only `if (tool && toolCall.id)`;
an invocation error is caught and becomes an error-content result; any
other call is skipped with only a console warning. -/
def runToolCallsI (toolMap : String → Option DSTool) :
    List ToolCall → List Message × List (String × String)
  | [] => ([], [])
  | toolCall :: rest =>
    match toolMap toolCall.name, toolCall.id with
    | some tool, some tcid =>
      if tcid.isEmpty then runToolCallsI toolMap rest
      else
        let (msgs, invs) := runToolCallsI toolMap rest
        match tool.invoke toolCall.args with
        | Except.ok output =>
            (Message.tool output tcid :: msgs, (toolCall.name, toolCall.args) :: invs)
        | Except.error msg =>
            (Message.tool (errorContent toolCall.name msg) tcid :: msgs,
             (toolCall.name, toolCall.args) :: invs)
    | _, _ => runToolCallsI toolMap rest

/-- The `tools` node: fetch the catalog, build the tool map, run the
calls of `state.answer`, return `{history: toolMessages}`. -/
def toolNode (getTools : Except String (List DSTool)) (state : AgentState) :
    Except String StateUpdate := do
  let availableTools ← getTools
  let toolMap := buildToolMap availableTools
  let toolMessages := (runToolCallsI toolMap (answerToolCalls state)).1
  pure { history := some toolMessages }

/-- The system prompt of the `generate_after_tools` node. -/
def systemPromptAfterTools (context : String) : String :=
  "You are Rhea, a helpful AI assistant. Based on the tool outputs and conversation context, provide a clear and helpful response to the user.\n\n🔍 **Context from previous conversations:**\n" ++ context

/-- The `generate_after_tools` node: re-invoke the model (no tool catalog
bound) on `[system, ...history, human(question)]`, return `{answer}`. -/
def generateAfterTools (modelInvoke : List Message → Except String AIMessage)
    (state : AgentState) : Except String StateUpdate := do
  let messages : List Message :=
    Message.system (systemPromptAfterTools state.context)
      :: state.history ++ [Message.human state.question]
  let result ← modelInvoke messages
  pure { answer := some result }

/-- The nodes of the compiled workflow graph (plus START and END). -/
inductive Node where
  | START
  | retrieve
  | generate
  | tools
  | generate_after_tools
  | END
deriving DecidableEq, Repr

/-- The edges added in `getAgent`: `START → retrieve → generate`, the
conditional edge `generate → tools | END` driven by `shouldContinue`, and
the unconditional edges `tools → generate_after_tools → END`. -/
def nextNode (state : AgentState) : Node → Node
  | Node.START => Node.retrieve
  | Node.retrieve => Node.generate
  | Node.generate =>
    match shouldContinue state with
    | Route.tools => Node.tools
    | Route.stop => Node.END
  | Node.tools => Node.generate_after_tools
  | Node.generate_after_tools => Node.END
  | Node.END => Node.END

/-- The external collaborators of one turn. -/
structure Env where
  similaritySearch : String → Nat → Except String (List Doc)
  getTools : Except String (List DSTool)
  modelInvokeWithTools : List DSTool → List Message → Except String AIMessage
  modelInvoke : List Message → Except String AIMessage

/-- One execution of the graph from `retrieve`, merging the partial return
of each node into the state with `mergeState`, following `nextNode`. -/
def runTurn (env : Env) (s0 : AgentState) : Except String AgentState := do
  let u1 ← retrieve env.similaritySearch s0
  let s1 := mergeState s0 u1
  let u2 ← generate env.getTools env.modelInvokeWithTools s1
  let s2 := mergeState s1 u2
  match shouldContinue s2 with
  | Route.stop => pure s2
  | Route.tools => do
    let u3 ← toolNode env.getTools s2
    let s3 := mergeState s2 u3
    let u4 ← generateAfterTools env.modelInvoke s3
    pure (mergeState s3 u4)

/-- The JS string trim: drop whitespace characters from both ends. -/
def jsTrim (s : String) : String :=
  ⟨((s.data.dropWhile Char.isWhitespace).reverse.dropWhile Char.isWhitespace).reverse⟩

/-- The text part of `content.map(...)` in `bot.ts`: a plain string element
passes through, a typed text part yields its text field, anything
else yields the empty string. -/
def flattenPart : ContentPart → String
  | ContentPart.str s => s
  | ContentPart.text s => s
  | ContentPart.other => ""

/-- Response assembly in `bot.ts`: string content passes through, array
content is flattened with join on the empty separator, anything else becomes the first
apology; then an empty-after-trim response becomes the second apology. -/
def assembleResponse (content : Option MessageContent) : String :=
  let botResponse :=
    match content with
    | some (MessageContent.str s) => s
    | some (MessageContent.parts ps) => String.join (ps.map flattenPart)
    | _ => "I apologize, but I encountered an error processing your request."
  if jsTrim botResponse = "" then
    "I apologize, but I could not generate a response."
  else
    botResponse

/-- The two documents passed to `vectorStore.addDocuments` in `bot.ts`. -/
def indexedDocs (userText botResponse threadId : String) : List Doc :=
  [ { pageContent := userText, metadata := [("type", "user"), ("threadId", threadId)] },
    { pageContent := botResponse, metadata := [("type", "bot"), ("threadId", threadId)] } ]

/-- The message handler of `bot.ts`: invoke the agent with the question
on the saved state of the thread, assemble the response, reply, and index both
the input and the output.  Returns the delivered text and indexed docs. -/
def handleMessage (env : Env) (saved : AgentState) (threadId userText : String) :
    Except String (String × List Doc) := do
  let response ← runTurn env (mergeState saved { question := some userText })
  let botResponse := assembleResponse (response.answer.map (·.content))
  pure (botResponse, indexedDocs userText botResponse threadId)

/-- The processing of one call by the tools loop: `none` when the call is
skipped (unknown tool or falsy id), otherwise the produced tool-result
message paired with the performed `(name, args)` invocation. -/
def processCall (toolMap : String → Option DSTool) (tc : ToolCall) :
    Option (Message × String × String) :=
  match toolMap tc.name, tc.id with
  | some tool, some tcid =>
    if tcid.isEmpty then none
    else
      match tool.invoke tc.args with
      | Except.ok output => some (Message.tool output tcid, tc.name, tc.args)
      | Except.error msg => some (Message.tool (errorContent tc.name msg) tcid, tc.name, tc.args)
  | _, _ => none

/-- The tool-call id carried by a history message, when it is a
tool-result message. -/
def msgToolCallId : Message → Option String
  | Message.tool _ tcid => some tcid
  | _ => none

lemma runToolCallsI_cons (m : String → Option DSTool) (tc : ToolCall) (rest : List ToolCall) :
    runToolCallsI m (tc :: rest) =
      match processCall m tc with
      | none => runToolCallsI m rest
      | some (msg, inv) =>
        (msg :: (runToolCallsI m rest).1, inv :: (runToolCallsI m rest).2) := by
  rcases hrest : runToolCallsI m rest with ⟨msgs, invs⟩
  simp only [runToolCallsI, processCall, hrest]
  rcases h1 : m tc.name with _ | tool
  · rcases h2 : tc.id with _ | tcid <;> simp [hrest]
  · rcases h2 : tc.id with _ | tcid
    · simp [hrest]
    · by_cases h3 : tcid.isEmpty
      · simp [h3, hrest]
      · rcases h4 : tool.invoke tc.args with msg | out <;> simp [h3, h4, hrest]

lemma runToolCallsI_append (m : String → Option DSTool) (l1 l2 : List ToolCall) :
    runToolCallsI m (l1 ++ l2) =
      ((runToolCallsI m l1).1 ++ (runToolCallsI m l2).1,
       (runToolCallsI m l1).2 ++ (runToolCallsI m l2).2) := by
  induction l1 with
  | nil => simp [runToolCallsI]
  | cons tc rest ih =>
    simp only [List.cons_append, runToolCallsI_cons, ih]
    rcases processCall m tc with _ | ⟨msg, inv⟩ <;> simp

/-- C4: across node boundaries, merging a returned partial state replaces
the returned values of question, context and answer, while history is
updated by concatenation; hence history length never decreases across a
merge and the prior history is a prefix of the merged history (no entry
removed or reordered). -/
theorem mergeState_replace_and_append (s : AgentState) (q c : String) (a : AIMessage)
    (msgs : List Message) (u : StateUpdate) :
    mergeState s { question := some q, context := some c, answer := some a, history := some msgs }
      = { question := q, context := c, answer := some a, history := s.history ++ msgs }
    ∧ (mergeState s u).history = s.history ++ u.history.getD []
    ∧ s.history.length ≤ ((mergeState s u).history).length
    ∧ s.history <+: (mergeState s u).history := by
  refine ⟨rfl, rfl, ?_, ?_⟩
  · simp [mergeState]
  · exact ⟨u.history.getD [], rfl⟩

/-- C7: the conditional edge after generate routes to the tools node iff
the answer carries at least one tool call and to END otherwise; the edges
tools → generate_after_tools and generate_after_tools → END are
unconditional, so generate_after_tools never leads back to tools. -/
theorem routing_policy (s : AgentState) :
    (nextNode s Node.generate = Node.tools ↔ answerToolCalls s ≠ [])
    ∧ (nextNode s Node.generate = Node.END ↔ answerToolCalls s = [])
    ∧ nextNode s Node.tools = Node.generate_after_tools
    ∧ nextNode s Node.generate_after_tools = Node.END := by
  refine ⟨?_, ?_, rfl, rfl⟩ <;>
  · simp only [nextNode, shouldContinue, answerToolCalls]
    rcases s.answer with _ | a
    · simp [Option.bind]
    · rcases htc : a.tool_calls with _ | tcs
      · simp [htc]
      · rcases tcs with _ | ⟨t, ts⟩ <;> simp [htc]

/-- C1 counterexample: a call to a tool absent from the catalog (name
nonexistent_tool, id t2) leads to no appended message at all — the tools
node returns an empty history append, not a synthetic error result
correlated to t2. -/
theorem unknown_tool_cex :
    toolNode
        (Except.ok [{ name := "list_emails", invoke := fun _ => Except.ok "3 unread messages" }])
        { question := "Check my email", context := "",
          answer := some { content := MessageContent.str "",
                           tool_calls := some [{ name := "nonexistent_tool", args := "", id := some "t2" }] },
          history := [] }
      = Except.ok { history := some [] } := by
  rfl

/-- C1 amended: a tool call whose name matches no entry of the tool map is
skipped — nothing is invoked for it, no message is appended for it, and
the remaining calls of the batch are processed exactly as without it (the
node never raises for it). -/
theorem unknown_tool_skipped (m : String → Option DSTool) (pre post : List ToolCall)
    (tc : ToolCall) (h : m tc.name = none) :
    runToolCallsI m (pre ++ tc :: post) =
      ((runToolCallsI m pre).1 ++ (runToolCallsI m post).1,
       (runToolCallsI m pre).2 ++ (runToolCallsI m post).2) := by
  have hskip : processCall m tc = none := by
    simp [processCall, h]
  simp [runToolCallsI_append, runToolCallsI_cons, hskip]

/-- Witness for the C1 amended theorem at a concrete batch. -/
theorem unknown_tool_skipped_witness :
    runToolCallsI
        (buildToolMap [{ name := "list_emails", invoke := fun _ => Except.ok "3 unread messages" }])
        ([({ name := "list_emails", args := "", id := some "t1" } : ToolCall)]
          ++ ({ name := "nonexistent_tool", args := "", id := some "t2" } : ToolCall)
          :: [({ name := "list_emails", args := "", id := some "t3" } : ToolCall)])
      = ((runToolCallsI
            (buildToolMap [{ name := "list_emails", invoke := fun _ => Except.ok "3 unread messages" }])
            [({ name := "list_emails", args := "", id := some "t1" } : ToolCall)]).1
          ++ (runToolCallsI
            (buildToolMap [{ name := "list_emails", invoke := fun _ => Except.ok "3 unread messages" }])
            [({ name := "list_emails", args := "", id := some "t3" } : ToolCall)]).1,
         (runToolCallsI
            (buildToolMap [{ name := "list_emails", invoke := fun _ => Except.ok "3 unread messages" }])
            [({ name := "list_emails", args := "", id := some "t1" } : ToolCall)]).2
          ++ (runToolCallsI
            (buildToolMap [{ name := "list_emails", invoke := fun _ => Except.ok "3 unread messages" }])
            [({ name := "list_emails", args := "", id := some "t3" } : ToolCall)]).2) :=
  unknown_tool_skipped _ _ _ _ rfl

/-- C10: a tool call whose id is missing is skipped even when its name is
in the tool map — nothing is invoked for it, no message is appended for
it, and the remaining calls of the batch are processed exactly as without
it. -/
theorem missing_id_skipped (m : String → Option DSTool) (pre post : List ToolCall)
    (tc : ToolCall) (h : tc.id = none) :
    runToolCallsI m (pre ++ tc :: post) =
      ((runToolCallsI m pre).1 ++ (runToolCallsI m post).1,
       (runToolCallsI m pre).2 ++ (runToolCallsI m post).2) := by
  have hskip : processCall m tc = none := by
    rcases hm : m tc.name with _ | tool <;> simp [processCall, h, hm]
  simp [runToolCallsI_append, runToolCallsI_cons, hskip]

/-- Witness for C10 at a concrete batch whose middle call names an
existing tool but has no id. -/
theorem missing_id_skipped_witness :
    runToolCallsI
        (buildToolMap [{ name := "list_emails", invoke := fun _ => Except.ok "3 unread messages" }])
        ([({ name := "list_emails", args := "", id := some "t1" } : ToolCall)]
          ++ ({ name := "list_emails", args := "", id := none } : ToolCall)
          :: [({ name := "list_emails", args := "", id := some "t3" } : ToolCall)])
      = ((runToolCallsI
            (buildToolMap [{ name := "list_emails", invoke := fun _ => Except.ok "3 unread messages" }])
            [({ name := "list_emails", args := "", id := some "t1" } : ToolCall)]).1
          ++ (runToolCallsI
            (buildToolMap [{ name := "list_emails", invoke := fun _ => Except.ok "3 unread messages" }])
            [({ name := "list_emails", args := "", id := some "t3" } : ToolCall)]).1,
         (runToolCallsI
            (buildToolMap [{ name := "list_emails", invoke := fun _ => Except.ok "3 unread messages" }])
            [({ name := "list_emails", args := "", id := some "t1" } : ToolCall)]).2
          ++ (runToolCallsI
            (buildToolMap [{ name := "list_emails", invoke := fun _ => Except.ok "3 unread messages" }])
            [({ name := "list_emails", args := "", id := some "t3" } : ToolCall)]).2) :=
  missing_id_skipped _ _ _ _ rfl

/-- C5: when the invocation of one call of the batch fails, the loop
catches the failure and records a tool-result message whose content is
the error description, correlated to the call id, and the calls before
and after it yield exactly the messages and invocations they would yield
on their own — the failing call aborts neither the batch nor the turn. -/
theorem failing_call_isolated (m : String → Option DSTool) (pre post : List ToolCall)
    (tc : ToolCall) (tool : DSTool) (tcid msg : String)
    (hm : m tc.name = some tool) (hid : tc.id = some tcid) (hne : tcid.isEmpty = false)
    (hinv : tool.invoke tc.args = Except.error msg) :
    runToolCallsI m (pre ++ tc :: post) =
      ((runToolCallsI m pre).1
         ++ Message.tool (errorContent tc.name msg) tcid :: (runToolCallsI m post).1,
       (runToolCallsI m pre).2 ++ (tc.name, tc.args) :: (runToolCallsI m post).2) := by
  have hp : processCall m tc
      = some (Message.tool (errorContent tc.name msg) tcid, tc.name, tc.args) := by
    simp [processCall, hm, hid, hne, hinv]
  simp [runToolCallsI_append, runToolCallsI_cons, hp]

/-- Witness for C5: a three-call batch whose middle invocation fails
still records the results of the first and third calls. -/
theorem failing_call_isolated_witness :
    runToolCallsI
        (buildToolMap
          [{ name := "list_emails", invoke := fun _ => Except.ok "3 unread messages" },
           { name := "send_email", invoke := fun _ => Except.error "network timeout" }])
        ([({ name := "list_emails", args := "", id := some "t1" } : ToolCall)]
          ++ ({ name := "send_email", args := "a", id := some "t2" } : ToolCall)
          :: [({ name := "list_emails", args := "", id := some "t3" } : ToolCall)])
      = ([Message.tool "3 unread messages" "t1",
          Message.tool (errorContent "send_email" "network timeout") "t2",
          Message.tool "3 unread messages" "t3"],
         [("list_emails", ""), ("send_email", "a"), ("list_emails", "")]) := by
  have h := failing_call_isolated
    (buildToolMap
      [{ name := "list_emails", invoke := fun _ => Except.ok "3 unread messages" },
       { name := "send_email", invoke := fun _ => Except.error "network timeout" }])
    [({ name := "list_emails", args := "", id := some "t1" } : ToolCall)]
    [({ name := "list_emails", args := "", id := some "t3" } : ToolCall)]
    ({ name := "send_email", args := "a", id := some "t2" } : ToolCall)
    { name := "send_email", invoke := fun _ => Except.error "network timeout" }
    "t2" "network timeout" rfl rfl rfl rfl
  exact h.trans rfl

lemma runToolCallsI_ids (m : String → Option DSTool) (calls : List ToolCall)
    (h : ∀ tc ∈ calls, (m tc.name).isSome = true ∧ idTruthy tc.id = true) :
    ((runToolCallsI m calls).1).map msgToolCallId = calls.map (·.id) := by
  induction calls with
  | nil => rfl
  | cons tc rest ih =>
    obtain ⟨h1, h2⟩ := h tc (List.mem_cons_self tc rest)
    have ih2 := ih (fun c hc => h c (List.mem_cons_of_mem _ hc))
    rcases hm : m tc.name with _ | tool
    · rw [hm] at h1; simp at h1
    · rcases hid : tc.id with _ | tcid
      · rw [hid] at h2; simp [idTruthy] at h2
      · have hne : tcid.isEmpty = false := by
          rw [hid] at h2; simpa [idTruthy] using h2
        rcases hinv : tool.invoke tc.args with e | out <;>
          simp [runToolCallsI_cons, processCall, hm, hid, hne, hinv, msgToolCallId, ih2]

/-- C6: when every call of the batch resolves (its name is in the tool
map and its id is truthy), the tool-result messages the tools node
appends to history carry, in order, exactly the ids of the calls as they
appear in the triggering answer — results are correlated by call id and
never reordered. -/
theorem tool_results_in_call_order (ts : List DSTool) (s : AgentState)
    (h : ∀ tc ∈ answerToolCalls s,
      (buildToolMap ts tc.name).isSome = true ∧ idTruthy tc.id = true) :
    ∃ msgs : List Message,
      toolNode (Except.ok ts) s = Except.ok { history := some msgs }
      ∧ msgs.map msgToolCallId = (answerToolCalls s).map (·.id) :=
  ⟨_, rfl, runToolCallsI_ids _ _ h⟩

/-- Witness for C6 at a concrete two-call batch. -/
theorem tool_results_in_call_order_witness :
    ∃ msgs : List Message,
      toolNode
          (Except.ok [{ name := "list_emails", invoke := fun _ => Except.ok "3 unread messages" }])
          { question := "q", context := "",
            answer := some { content := MessageContent.str "",
                             tool_calls := some
                               [{ name := "list_emails", args := "", id := some "t1" },
                                { name := "list_emails", args := "", id := some "t2" }] },
            history := [] }
        = Except.ok { history := some msgs }
      ∧ msgs.map msgToolCallId
        = (answerToolCalls
            { question := "q", context := "",
              answer := some { content := MessageContent.str "",
                               tool_calls := some
                                 [{ name := "list_emails", args := "", id := some "t1" },
                                  { name := "list_emails", args := "", id := some "t2" }] },
              history := [] }).map (·.id) :=
  tool_results_in_call_order _ _ (by decide)

/-- C2 counterexample: on a failing similarity search the retrieve node
returns the error instead of succeeding with an empty context. -/
theorem retrieve_failure_cex :
    retrieve (fun _ _ => Except.error "db down")
        { question := "hi", context := "", answer := none, history := [] }
      = Except.error "db down"
    ∧ (retrieve (fun _ _ => Except.error "db down")
        { question := "hi", context := "", answer := none, history := [] }).isOk = false :=
  ⟨rfl, rfl⟩

/-- C2 amended: a failure of the memory-gateway similarity search
propagates out of the retrieve node and fails the whole turn — execution
does not proceed to the generate node with an empty context. -/
theorem retrieve_failure_propagates (env : Env) (s : AgentState) (e : String)
    (h : env.similaritySearch s.question 2 = Except.error e) :
    retrieve env.similaritySearch s = Except.error e ∧ runTurn env s = Except.error e := by
  have h1 : retrieve env.similaritySearch s = Except.error e := by
    unfold retrieve
    rw [h]
    rfl
  refine ⟨h1, ?_⟩
  unfold runTurn
  rw [h1]
  rfl

/-- Witness for the C2 amended theorem at a concrete failing search. -/
theorem retrieve_failure_propagates_witness :
    runTurn
        { similaritySearch := fun _ _ => Except.error "db down",
          getTools := Except.ok [],
          modelInvokeWithTools := fun _ _ => Except.error "unused",
          modelInvoke := fun _ => Except.error "unused" }
        { question := "hi", context := "", answer := none, history := [] }
      = Except.error "db down" :=
  (retrieve_failure_propagates _ _ _ rfl).2

lemma ite_trim_ne_empty (b : String) :
    (if jsTrim b = "" then "I apologize, but I could not generate a response." else b) ≠ "" := by
  split
  · decide
  · rename_i hb
    intro he
    exact hb (by rw [he]; rfl)

/-- C8: for array content the delivered text is the concatenation of the
textual parts with non-textual parts contributing nothing, for string
content it is the string itself, an empty-or-whitespace flattening is
replaced by the fixed apology string, and the delivered message is never
empty. -/
theorem response_assembly (ps : List ContentPart) (s : String) (c : Option MessageContent) :
    assembleResponse (some (MessageContent.parts ps))
      = (if jsTrim (String.join (ps.map flattenPart)) = ""
         then "I apologize, but I could not generate a response."
         else String.join (ps.map flattenPart))
    ∧ assembleResponse (some (MessageContent.str s))
      = (if jsTrim s = "" then "I apologize, but I could not generate a response." else s)
    ∧ assembleResponse c ≠ "" := by
  refine ⟨rfl, rfl, ?_⟩
  unfold assembleResponse
  exact ite_trim_ne_empty _

/-- The collaborators of the concrete no-tools scenario: empty memory,
empty catalog, the model answers with plain text and no tool calls. -/
def parisEnv : Env where
  similaritySearch := fun _ _ => Except.ok []
  getTools := Except.ok []
  modelInvokeWithTools := fun _ _ =>
    Except.ok { content := MessageContent.str "Paris is the capital of France.", tool_calls := none }
  modelInvoke := fun _ =>
    Except.ok { content := MessageContent.str "Paris is the capital of France.", tool_calls := none }

/-- C3, evaluated at the concrete no-tools scenario: the delivered text is
exactly the textual answer of the model, but the final history is empty —
the turn appends zero messages to history (no node of the no-tools path
returns a history update), not one user and one assistant message. -/
theorem no_tools_turn_paris :
    handleMessage parisEnv { question := "", context := "", answer := none, history := [] }
        "42" "What is the capital of France?"
      = Except.ok ("Paris is the capital of France.",
          indexedDocs "What is the capital of France?" "Paris is the capital of France." "42")
    ∧ runTurn parisEnv
        (mergeState { question := "", context := "", answer := none, history := [] }
          { question := some "What is the capital of France?" })
      = Except.ok
          { question := "What is the capital of France?", context := "",
            answer := some { content := MessageContent.str "Paris is the capital of France.",
                             tool_calls := none },
            history := [] } :=
  ⟨rfl, rfl⟩

/-- C9 counterexample: the metadata records passed to addDocuments have no
role key at all, and the key they do have, type, holds user and bot — not
user and assistant. -/
theorem index_metadata_cex :
    ((indexedDocs "hi" "hello" "42").map (fun d => d.metadata.lookup "role")) = [none, none]
    ∧ ((indexedDocs "hi" "hello" "42").map (fun d => d.metadata.lookup "type"))
      = [some "user", some "bot"] :=
  ⟨rfl, rfl⟩

/-- C9 amended: after every delivered turn, both the input text and the
delivered output text are indexed, each with a metadata record of the
shape with keys type (value user or bot) and threadId. -/
theorem index_metadata (env : Env) (saved : AgentState) (threadId userText delivered : String)
    (docs : List Doc)
    (h : handleMessage env saved threadId userText = Except.ok (delivered, docs)) :
    docs = [ { pageContent := userText, metadata := [("type", "user"), ("threadId", threadId)] },
             { pageContent := delivered, metadata := [("type", "bot"), ("threadId", threadId)] } ] := by
  unfold handleMessage at h
  rcases hr : runTurn env (mergeState saved { question := some userText }) with e | st
  · rw [hr] at h
    exact absurd h (by simp)
  · rw [hr] at h
    have h' : (Except.ok
        (assembleResponse (st.answer.map (·.content)),
         indexedDocs userText (assembleResponse (st.answer.map (·.content))) threadId)
        : Except String (String × List Doc))
        = Except.ok (delivered, docs) := h
    simp only [Except.ok.injEq, Prod.mk.injEq] at h'
    obtain ⟨h1, h2⟩ := h'
    rw [← h2, ← h1]
    rfl

/-- Witness for the C9 amended theorem at a concrete delivered turn. -/
theorem index_metadata_witness :
    indexedDocs "hi" "ok" "42"
      = [ { pageContent := "hi", metadata := [("type", "user"), ("threadId", "42")] },
          { pageContent := "ok", metadata := [("type", "bot"), ("threadId", "42")] } ] :=
  index_metadata
    { similaritySearch := fun _ _ => Except.ok [],
      getTools := Except.ok [],
      modelInvokeWithTools := fun _ _ =>
        Except.ok { content := MessageContent.str "ok", tool_calls := none },
      modelInvoke := fun _ =>
        Except.ok { content := MessageContent.str "ok", tool_calls := none } }
    { question := "", context := "", answer := none, history := [] }
    "42" "hi" "ok" (indexedDocs "hi" "ok" "42") rfl

end Rhea
